import Mathlib

/-!
Shallow embedding of the conversational guidance service in `main.py`:
the pure reply synthesizer `generate_guru_reply`, the persona listing
endpoint `list_gurus`, and the exchange handler `ask_guru`.

The external document store (`create_document` / `get_documents` from the
`database` module) is modelled as explicit state: three collections of
documents plus a counter for generated identifiers.  Store operations may
raise; this is modelled by a schedule of failure flags consumed one per
store call (an empty schedule means every call succeeds).  Every attempted
`create_document` call is appended to a write log so that "performs no
persistence writes" is directly statable.
-/

namespace GuruChat

/-- A document field value: JSON-style string or null (Python `None`). -/
inductive Value where
  | str (s : String)
  | null
deriving DecidableEq, Repr

/-- A document is an ordered association list of fields (a Python dict). -/
abbrev Doc := List (String × Value)

/-- The one non-trivial Mongo filter the code uses:
`{"$or": [{"archetype": v}, {"_id": v}]}`. -/
inductive Filter where
  | byArchetypeOrId (v : String)
deriving DecidableEq

/-- A document matches the `$or` filter when its `archetype` field or its
`_id` field equals the given string. -/
def docMatches (f : Filter) (d : Doc) : Bool :=
  match f with
  | .byArchetypeOrId v =>
      d.lookup "archetype" == some (.str v) || d.lookup "_id" == some (.str v)

/-- The document store: the three collections the code touches, plus a
counter from which generated identifiers are derived. -/
structure Store where
  guru : List Doc
  conversation : List Doc
  message : List Doc
  nextId : Nat
deriving DecidableEq, Repr

def Store.getColl (s : Store) (c : String) : List Doc :=
  if c = "guru" then s.guru
  else if c = "conversation" then s.conversation
  else if c = "message" then s.message
  else []

def Store.setColl (s : Store) (c : String) (ds : List Doc) : Store :=
  if c = "guru" then { s with guru := ds }
  else if c = "conversation" then { s with conversation := ds }
  else if c = "message" then { s with message := ds }
  else s

/-- Store state together with a failure schedule (one flag consumed per
store call; `true` means that call raises) and a log of attempted writes. -/
structure DB where
  store : Store
  failures : List Bool
  writeLog : List (String × Doc)
deriving DecidableEq, Repr

/-- Consume the next failure flag (no flag left means success). -/
def nextFail (db : DB) : Bool × DB :=
  match db.failures with
  | [] => (false, db)
  | b :: rest => (b, { db with failures := rest })

/-- `get_documents(collection, filter?)`: raises (models `Except.error`)
when the consumed failure flag is set, otherwise returns the collection's
documents, filtered when a filter is given. -/
def get_documents (db : DB) (c : String) (f : Option Filter) :
    Except Unit (List Doc) × DB :=
  let (fail, db1) := nextFail db
  if fail then (.error (), db1)
  else
    match f with
    | none => (.ok (db1.store.getColl c), db1)
    | some flt => (.ok ((db1.store.getColl c).filter (docMatches flt)), db1)

/-- `create_document(collection, doc)`: logs the attempted write, raises
when the consumed failure flag is set, otherwise inserts the document with
a generated `_id` and returns that identifier. -/
def create_document (db : DB) (c : String) (d : Doc) :
    Except Unit String × DB :=
  let db0 := { db with writeLog := db.writeLog ++ [(c, d)] }
  let (fail, db1) := nextFail db0
  if fail then (.error (), db1)
  else
    let id := "oid" ++ toString db1.store.nextId
    let d2 := ("_id", Value.str id) :: d
    let s := db1.store
    let s2 := s.setColl c (s.getColl c ++ [d2])
    (.ok id, { db1 with store := { s2 with nextId := s.nextId + 1 } })

/-! ## Reply synthesizer (`generate_guru_reply`) -/

/-- Python `w in msg`: substring containment on the underlying characters. -/
def strContains (s w : String) : Bool :=
  decide (w.toList <:+: s.toList)

/-- Python `str.lower()` (ASCII case mapping, as used by the code). -/
def pyLower (s : String) : String :=
  ⟨s.data.map Char.toLower⟩

/-- Python `str.strip()`: drop leading and trailing whitespace. -/
def pyStrip (s : String) : String :=
  ⟨((s.data.dropWhile Char.isWhitespace).reverse.dropWhile Char.isWhitespace).reverse⟩

def prefaceTable : List (String × String) :=
  [("zen", "Zen Reflection:"),
   ("yogi", "Yogic Guidance:"),
   ("astrologer", "Astrological Insight:"),
   ("monk", "Monastic Wisdom:"),
   ("sufi", "Sufi Whisper:")]

def tailoringTable : List (String × String) :=
  [("zen", " Embrace simplicity—wash the bowl, one mindful action at a time."),
   ("yogi", " Align breath and intention; the posture of your day shapes the posture of your mind."),
   ("astrologer", " Trust timing; not every seed sprouts in the same season."),
   ("monk", " Choose quiet courage. Consistency is a humble miracle."),
   ("sufi", " Let love polish the heart; dance gently with what is.")]

def silenceCore : String :=
  "Silence can be a teacher. Breathe, observe, and allow the next question to arise naturally."

def stressCore : String :=
  "Place a hand on your heart. Inhale for 4, hold for 4, exhale for 6. Notice one thing you can see, hear, and feel. Your mind will follow your breath."

def purposeCore : String :=
  "Purpose unfolds in small, honest steps. Name one value you refuse to abandon; take one action today that honors it."

def relationshipCore : String :=
  "Love matures through presence and boundaries. Speak your needs with kindness; listen without preparing your defense."

def careerCore : String :=
  "Treat your work as a dojo: show up, practice, reflect. Choose the smallest improvement you can repeat for 7 days; let results compound."

def defaultCore : String :=
  "Return to the body: relax the jaw, soften the shoulders. Ask: What is truly needed now? Let the simple, compassionate response lead your next move."

def stressKeys : List String := ["stress", "anxious", "anxiety", "overwhelmed"]
def purposeKeys : List String := ["purpose", "meaning", "direction"]
def relationshipKeys : List String := ["love", "relationship", "breakup", "heart"]
def careerKeys : List String := ["career", "job", "work"]

/-- The if/elif chain of `generate_guru_reply` selecting the core reply
from the stripped message. -/
def selectCore (msg : String) : String :=
  if msg = "" then silenceCore
  else if stressKeys.any (fun w => strContains (pyLower msg) w) then stressCore
  else if purposeKeys.any (fun w => strContains (pyLower msg) w) then purposeCore
  else if relationshipKeys.any (fun w => strContains (pyLower msg) w) then relationshipCore
  else if careerKeys.any (fun w => strContains (pyLower msg) w) then careerCore
  else defaultCore

/-- `generate_guru_reply(archetype, user_message)`: strip the message,
lower-case the archetype, select opening, core and tailoring, and compose
`f"{opening} {core}{tailoring}"`. -/
def generate_guru_reply (archetype user_message : String) : String :=
  let msg := pyStrip user_message
  let a := pyLower archetype
  let opening := (prefaceTable.lookup a).getD "Guidance:"
  let core := selectCore msg
  (opening ++ " " ++ core) ++ (tailoringTable.lookup a).getD ""

/-! ## Persona listing (`list_gurus`) -/

/-- The five built-in default personas of `list_gurus`. -/
def default_gurus : List Doc :=
  [[("name", .str "Zen Teacher"), ("archetype", .str "zen"), ("avatar", .str "🪷"), ("description", .str "Quiet clarity and koan-like reflections.")],
   [("name", .str "Yogi Guide"), ("archetype", .str "yogi"), ("avatar", .str "🧘"), ("description", .str "Breath, alignment, and daily practice.")],
   [("name", .str "Astrologer"), ("archetype", .str "astrologer"), ("avatar", .str "✨"), ("description", .str "Patterns of time and temperament.")],
   [("name", .str "Monk Mentor"), ("archetype", .str "monk"), ("avatar", .str "🙏"), ("description", .str "Discipline, devotion, and gentle routine.")],
   [("name", .str "Sufi Friend"), ("archetype", .str "sufi"), ("avatar", .str "🕊️"), ("description", .str "Heart-centered presence and poetry.")]]

/-- Python `str(value)` for document field values. -/
def valueStr : Value → String
  | .str s => s
  | .null => "None"

/-- Normalization loop of `list_gurus`: drop `_id`, and when it was
present append it back as a string field `id`. -/
def normalize_doc (d : Doc) : Doc :=
  let d2 := d.filter (fun kv => kv.fst != "_id")
  match d.lookup "_id" with
  | some v => d2 ++ [("id", .str (valueStr v))]
  | none => d2

/-- The best-effort seeding loop: write each default, ignoring failures. -/
def seed_loop : List Doc → DB → DB
  | [], db => db
  | g :: rest, db => seed_loop rest (create_document db "guru" g).2

/-- `list_gurus`: query the guru collection; on an empty result seed the
defaults and re-query; if either query raises fall back to the built-in
defaults; normalize `_id` on every returned document. -/
def list_gurus (db : DB) : List Doc × DB :=
  match get_documents db "guru" none with
  | (.error _, db1) => (default_gurus.map normalize_doc, db1)
  | (.ok docs, db1) =>
    match docs with
    | [] =>
      let db2 := seed_loop default_gurus db1
      match get_documents db2 "guru" none with
      | (.error _, db3) => (default_gurus.map normalize_doc, db3)
      | (.ok docs2, db3) => (docs2.map normalize_doc, db3)
    | _ :: _ => (docs.map normalize_doc, db1)

/-! ## Exchange handler (`ask_guru`) -/

/-- The request payload (`AskRequest`). -/
structure AskRequest where
  conversation_id : Option String
  guru_id : String
  user_message : String
  user_name : Option String
deriving DecidableEq, Repr

/-- The handler outcome: a 200 response, the explicit
`HTTPException(404, "Guru not found")`, or an unhandled exception (only
reachable when a stored persona carries a null `archetype` value, on which
Python's `.lower()` would raise). -/
inductive AskResult where
  | ok (conversation_id reply : String)
  | notFound
  | serverError
deriving DecidableEq, Repr

/-- The short default-persona table inlined in `ask_guru`. -/
def ask_defaults : List Doc :=
  [[("name", .str "Zen Teacher"), ("archetype", .str "zen")],
   [("name", .str "Yogi Guide"), ("archetype", .str "yogi")],
   [("name", .str "Astrologer"), ("archetype", .str "astrologer")],
   [("name", .str "Monk Mentor"), ("archetype", .str "monk")],
   [("name", .str "Sufi Friend"), ("archetype", .str "sufi")]]

/-- Persona resolution at the top of `ask_guru`: query by archetype or
identifier with failures swallowed (an exception leaves `guru_docs` as the
empty list); an empty result falls back to the first default whose
archetype equals `guru_id`; a non-empty result yields its first document. -/
def resolve_persona (guru_id : String) (db : DB) : Option Doc × DB :=
  let (qres, db1) := get_documents db "guru" (some (.byArchetypeOrId guru_id))
  let guru_docs : List Doc := match qres with | .ok ds => ds | .error _ => []
  match guru_docs with
  | [] => (ask_defaults.find? (fun g => g.lookup "archetype" == some (.str guru_id)), db1)
  | d :: _ => (some d, db1)

/-- Python falsiness of the optional conversation id (`None` or `""`). -/
def falsyOpt : Option String → Bool
  | none => true
  | some s => s == ""

/-- The conversation document written on lazy creation. -/
def conv_doc (guru_id : String) (user_name : Option String) : Doc :=
  [("guru_id", .str guru_id),
   ("user_name", match user_name with | some s => .str s | none => .null),
   ("title", .null)]

/-- A message document. -/
def msg_doc (cid role content gid : String) : Doc :=
  [("conversation_id", .str cid), ("role", .str role),
   ("content", .str content), ("guru_id", .str gid)]

/-- The two message writes of the `try` block, stopping at the first
raised exception; returns whether an exception was raised. -/
def write_messages (cid gid user_message reply : String) (db : DB) : Bool × DB :=
  match create_document db "message" (msg_doc cid "user" user_message gid) with
  | (.error _, db1) => (true, db1)
  | (.ok _, db1) =>
    match create_document db1 "message" (msg_doc cid "guru" reply gid) with
    | (.error _, db2) => (true, db2)
    | (.ok _, db2) => (false, db2)

/-- `ask_guru(payload)`: resolve the persona (404 when none matches),
synthesize the reply from `guru.get("archetype", "zen")`, then persist
conversation and messages inside a `try` whose handler substitutes the
`"temp-session"` sentinel when the conversation id is still falsy. -/
def ask_guru (payload : AskRequest) (db : DB) : AskResult × DB :=
  match resolve_persona payload.guru_id db with
  | (none, db1) => (.notFound, db1)
  | (some guru, db1) =>
    match (guru.lookup "archetype").getD (.str "zen") with
    | .null => (.serverError, db1)
    | .str archetype =>
      let reply := generate_guru_reply archetype payload.user_message
      if falsyOpt payload.conversation_id then
        match create_document db1 "conversation"
            (conv_doc payload.guru_id payload.user_name) with
        | (.error _, db2) => (.ok "temp-session" reply, db2)
        | (.ok cid, db2) =>
          let (raised, db3) := write_messages cid payload.guru_id payload.user_message reply db2
          (.ok (if raised && cid == "" then "temp-session" else cid) reply, db3)
      else
        let cid := payload.conversation_id.getD ""
        let (raised, db3) := write_messages cid payload.guru_id payload.user_message reply db1
        (.ok (if raised && cid == "" then "temp-session" else cid) reply, db3)


/-! ## Theorems -/

set_option maxRecDepth 400000

/-- Helper: a key different from all five archetypes is absent from the
preface table. -/
theorem prefaceTable_lookup_none (a : String)
    (h : a ∉ (["zen", "yogi", "astrologer", "monk", "sufi"] : List String)) :
    prefaceTable.lookup a = none := by
  simp only [List.mem_cons, List.not_mem_nil, or_false, not_or] at h
  obtain ⟨h1, h2, h3, h4, h5⟩ := h
  simp [prefaceTable, List.lookup,
    beq_eq_false_iff_ne.mpr h1, beq_eq_false_iff_ne.mpr h2,
    beq_eq_false_iff_ne.mpr h3, beq_eq_false_iff_ne.mpr h4,
    beq_eq_false_iff_ne.mpr h5]

/-- Helper: a key different from all five archetypes is absent from the
tailoring table. -/
theorem tailoringTable_lookup_none (a : String)
    (h : a ∉ (["zen", "yogi", "astrologer", "monk", "sufi"] : List String)) :
    tailoringTable.lookup a = none := by
  simp only [List.mem_cons, List.not_mem_nil, or_false, not_or] at h
  obtain ⟨h1, h2, h3, h4, h5⟩ := h
  simp [tailoringTable, List.lookup,
    beq_eq_false_iff_ne.mpr h1, beq_eq_false_iff_ne.mpr h2,
    beq_eq_false_iff_ne.mpr h3, beq_eq_false_iff_ne.mpr h4,
    beq_eq_false_iff_ne.mpr h5]

/-- C3: every message that is non-empty after stripping and contains a
stress-bucket keyword (case-insensitively) gets the stress-bucket core
reply, whatever other bucket keywords it contains; the reply is the
opening, one space, the stress core, then the tailoring suffix. -/
theorem stress_bucket_priority (archetype user_message : String)
    (hne : pyStrip user_message ≠ "")
    (hstress : stressKeys.any (fun w => strContains (pyLower (pyStrip user_message)) w) = true) :
    generate_guru_reply archetype user_message
      = ((prefaceTable.lookup (pyLower archetype)).getD "Guidance:" ++ " " ++ stressCore)
        ++ (tailoringTable.lookup (pyLower archetype)).getD "" := by
  simp [generate_guru_reply, selectCore, hne, hstress]

/-- C3 witness: "I feel ANXIOUS about work" also contains the career
keyword "work", yet the stress core is selected. -/
theorem stress_bucket_priority_witness :
    pyStrip "I feel ANXIOUS about work" ≠ "" ∧
    (stressKeys.any (fun w => strContains (pyLower (pyStrip "I feel ANXIOUS about work")) w) = true) ∧
    (careerKeys.any (fun w => strContains (pyLower (pyStrip "I feel ANXIOUS about work")) w) = true) ∧
    generate_guru_reply "zen" "I feel ANXIOUS about work"
      = ((prefaceTable.lookup (pyLower "zen")).getD "Guidance:" ++ " " ++ stressCore)
        ++ (tailoringTable.lookup (pyLower "zen")).getD "" :=
  ⟨by decide, by decide, by decide,
   stress_bucket_priority "zen" "I feel ANXIOUS about work" (by decide) (by decide)⟩

/-- C4: a message that is empty after stripping yields the silence core
reply for every archetype, composed as the opening label, one space, the
silence core, then the tailoring suffix with no extra separator. -/
theorem empty_message_silence (archetype user_message : String)
    (h : pyStrip user_message = "") :
    generate_guru_reply archetype user_message
      = ((prefaceTable.lookup (pyLower archetype)).getD "Guidance:" ++ " " ++ silenceCore)
        ++ (tailoringTable.lookup (pyLower archetype)).getD "" := by
  simp [generate_guru_reply, selectCore, h]

/-- C4 witness: a whitespace-only message with a known archetype. -/
theorem empty_message_silence_witness :
    pyStrip "   " = "" ∧
    generate_guru_reply "zen" "   "
      = ((prefaceTable.lookup (pyLower "zen")).getD "Guidance:" ++ " " ++ silenceCore)
        ++ (tailoringTable.lookup (pyLower "zen")).getD "" :=
  ⟨by decide, empty_message_silence "zen" "   " (by decide)⟩

/-- C5 counterexample: the archetype string "ZEN" is not one of the five
known archetype strings, yet the reply uses the zen-specific opening and
tailoring, not the generic "Guidance:" opening with empty suffix. -/
theorem unknown_archetype_counterexample :
    "ZEN" ∉ (["zen", "yogi", "astrologer", "monk", "sufi"] : List String) ∧
    generate_guru_reply "ZEN" "hello"
      ≠ ("Guidance:" ++ " " ++ selectCore (pyStrip "hello")) ∧
    generate_guru_reply "ZEN" "hello"
      = ("Zen Reflection:" ++ " " ++ selectCore (pyStrip "hello"))
        ++ " Embrace simplicity—wash the bowl, one mindful action at a time." :=
  ⟨by decide, by decide, by decide⟩

/-- C5 (amended): for every archetype string whose lower-casing is not one
of the five known archetypes, the reply uses the generic "Guidance:"
opening (the preface lookup misses) and the empty tailoring suffix (the
tailoring lookup misses), around the normally bucketed core reply. -/
theorem unknown_archetype_generic (archetype user_message : String)
    (h : pyLower archetype ∉ (["zen", "yogi", "astrologer", "monk", "sufi"] : List String)) :
    prefaceTable.lookup (pyLower archetype) = none ∧
    tailoringTable.lookup (pyLower archetype) = none ∧
    generate_guru_reply archetype user_message
      = "Guidance:" ++ " " ++ selectCore (pyStrip user_message) := by
  have hp := prefaceTable_lookup_none _ h
  have ht := tailoringTable_lookup_none _ h
  refine ⟨hp, ht, ?_⟩
  simp [generate_guru_reply, hp, ht]

/-- C5 (amended) witness: the unknown archetype "oracle". -/
theorem unknown_archetype_generic_witness :
    pyLower "oracle" ∉ (["zen", "yogi", "astrologer", "monk", "sufi"] : List String) ∧
    generate_guru_reply "oracle" "hello"
      = "Guidance:" ++ " " ++ selectCore (pyStrip "hello") :=
  ⟨by decide, (unknown_archetype_generic "oracle" "hello" (by decide)).2.2⟩

/-- C10: archetype lookup is case-insensitive: whenever the lower-cased
archetype is one of the five known archetypes, both table lookups hit, so
the reply uses that archetype's specific opening (not "Guidance:") and its
non-empty tailoring suffix. -/
theorem archetype_case_insensitive (archetype user_message : String)
    (h : pyLower archetype ∈ (["zen", "yogi", "astrologer", "monk", "sufi"] : List String)) :
    ∃ p t, prefaceTable.lookup (pyLower archetype) = some p ∧
      tailoringTable.lookup (pyLower archetype) = some t ∧
      p ≠ "Guidance:" ∧ t ≠ "" ∧
      generate_guru_reply archetype user_message
        = (p ++ " " ++ selectCore (pyStrip user_message)) ++ t := by
  simp only [List.mem_cons, List.not_mem_nil, or_false] at h
  rcases h with h|h|h|h|h
  · exact ⟨"Zen Reflection:", " Embrace simplicity—wash the bowl, one mindful action at a time.",
      by rw [h]; decide, by rw [h]; decide, by decide, by decide,
      by simp [generate_guru_reply, h, prefaceTable, tailoringTable, List.lookup]⟩
  · exact ⟨"Yogic Guidance:", " Align breath and intention; the posture of your day shapes the posture of your mind.",
      by rw [h]; decide, by rw [h]; decide, by decide, by decide,
      by simp [generate_guru_reply, h, prefaceTable, tailoringTable, List.lookup]⟩
  · exact ⟨"Astrological Insight:", " Trust timing; not every seed sprouts in the same season.",
      by rw [h]; decide, by rw [h]; decide, by decide, by decide,
      by simp [generate_guru_reply, h, prefaceTable, tailoringTable, List.lookup]⟩
  · exact ⟨"Monastic Wisdom:", " Choose quiet courage. Consistency is a humble miracle.",
      by rw [h]; decide, by rw [h]; decide, by decide, by decide,
      by simp [generate_guru_reply, h, prefaceTable, tailoringTable, List.lookup]⟩
  · exact ⟨"Sufi Whisper:", " Let love polish the heart; dance gently with what is.",
      by rw [h]; decide, by rw [h]; decide, by decide, by decide,
      by simp [generate_guru_reply, h, prefaceTable, tailoringTable, List.lookup]⟩

/-- Helper: persona resolution consumes exactly one failure flag and
changes nothing else in the database. -/
theorem resolve_persona_state (gid : String) (db : DB) :
    (resolve_persona gid db).2 = { db with failures := db.failures.tail } := by
  rcases db with ⟨st, fl, lg⟩
  rcases fl with _ | ⟨b, rest⟩
  · simp [resolve_persona, get_documents, nextFail]
    split <;> rfl
  · rcases b
    · simp [resolve_persona, get_documents, nextFail]
      split <;> rfl
    · simp [resolve_persona, get_documents, nextFail]

/-- Helper: every attempted write is appended to the write log, whether or
not it succeeds. -/
theorem create_document_log (db : DB) (c : String) (d : Doc) :
    (create_document db c d).2.writeLog = db.writeLog ++ [(c, d)] := by
  rcases db with ⟨st, fl, lg⟩
  rcases fl with _ | ⟨b, rest⟩
  · simp [create_document, nextFail]
  · rcases b <;> simp [create_document, nextFail]

/-- Helper: a successful insert returns the generated identifier derived
from the store counter. -/
theorem create_document_ok_id (db : DB) (c : String) (d : Doc) (r : String) (db2 : DB)
    (h : create_document db c d = (.ok r, db2)) :
    r = "oid" ++ toString db.store.nextId := by
  rcases db with ⟨st, fl, lg⟩
  rcases fl with _ | ⟨b, rest⟩
  · simp [create_document, nextFail] at h
    exact h.1.symm
  · rcases b <;> simp [create_document, nextFail] at h
    exact h.1.symm

/-- Helper: generated identifiers are never the empty string. -/
theorem oid_ne_empty (n : Nat) : ("oid" ++ toString n) ≠ "" := by
  intro h
  have h2 := congrArg String.data h
  simp [String.data_append] at h2

/-- Helper: writing into the message collection leaves the conversation
collection untouched. -/
theorem create_message_conversation (db : DB) (d : Doc) :
    (create_document db "message" d).2.store.conversation = db.store.conversation := by
  rcases db with ⟨st, fl, lg⟩
  rcases fl with _ | ⟨b, rest⟩
  · simp [create_document, nextFail, Store.getColl, Store.setColl]
  · rcases b <;> simp [create_document, nextFail, Store.getColl, Store.setColl]

/-- Helper: the pair of message writes leaves the conversation collection
untouched. -/
theorem write_messages_conversation (cid gid um rp : String) (db : DB) :
    (write_messages cid gid um rp db).2.store.conversation = db.store.conversation := by
  unfold write_messages
  rcases h1 : create_document db "message" (msg_doc cid "user" um gid) with ⟨r1, db1⟩
  have e1 := create_message_conversation db (msg_doc cid "user" um gid)
  rw [h1] at e1
  simp only at e1
  rcases r1 with _ | id1
  · simpa using e1
  · dsimp only
    rcases h2 : create_document db1 "message" (msg_doc cid "guru" rp gid) with ⟨r2, db2⟩
    have e2 := create_message_conversation db1 (msg_doc cid "guru" rp gid)
    rw [h2] at e2
    simp only at e2
    rcases r2 with _ | id2 <;> simp only <;> rw [e2, e1]

/-- Helper: the pair of message writes only ever appends message-collection
entries to the write log. -/
theorem write_messages_log (cid gid um rp : String) (db : DB) :
    ∀ e ∈ (write_messages cid gid um rp db).2.writeLog,
      e ∈ db.writeLog ∨ e.1 = "message" := by
  unfold write_messages
  rcases h1 : create_document db "message" (msg_doc cid "user" um gid) with ⟨r1, db1⟩
  have e1 := create_document_log db "message" (msg_doc cid "user" um gid)
  rw [h1] at e1
  simp only at e1
  rcases r1 with _ | id1
  · intro e he
    simp at he
    rw [e1] at he
    rcases List.mem_append.mp he with h | h
    · exact Or.inl h
    · simp at h
      right
      rw [h]
  · dsimp only
    rcases h2 : create_document db1 "message" (msg_doc cid "guru" rp gid) with ⟨r2, db2⟩
    have e2 := create_document_log db1 "message" (msg_doc cid "guru" rp gid)
    rw [h2] at e2
    simp only at e2
    have step : ∀ e ∈ db2.writeLog, e ∈ db.writeLog ∨ e.1 = "message" := by
      intro e he
      rw [e2, e1] at he
      rcases List.mem_append.mp he with h | h
      · rcases List.mem_append.mp h with h3 | h3
        · exact Or.inl h3
        · simp at h3
          right
          rw [h3]
      · simp at h
        right
        rw [h]
    rcases r2 with _ | id2 <;> simpa using step

/-- C10 witness: the upper-cased archetype "ZEN". -/
theorem archetype_case_insensitive_witness :
    pyLower "ZEN" ∈ (["zen", "yogi", "astrologer", "monk", "sufi"] : List String) ∧
    ∃ p t, prefaceTable.lookup (pyLower "ZEN") = some p ∧
      tailoringTable.lookup (pyLower "ZEN") = some t ∧
      p ≠ "Guidance:" ∧ t ≠ "" ∧
      generate_guru_reply "ZEN" "hi"
        = (p ++ " " ++ selectCore (pyStrip "hi")) ++ t :=
  ⟨by decide, archetype_case_insensitive "ZEN" "hi" (by decide)⟩


/-- Helper: the fallback scan of the inline default table finds a persona
exactly when `guru_id` is one of the five archetype strings. -/
theorem find_ask_defaults_isSome (gid : String) :
    (ask_defaults.find? (fun g => g.lookup "archetype" == some (.str gid))).isSome
      ↔ gid ∈ (["zen", "yogi", "astrologer", "monk", "sufi"] : List String) := by
  by_cases h1 : gid = "zen"
  · subst h1; decide
  by_cases h2 : gid = "yogi"
  · subst h2; decide
  by_cases h3 : gid = "astrologer"
  · subst h3; decide
  by_cases h4 : gid = "monk"
  · subst h4; decide
  by_cases h5 : gid = "sufi"
  · subst h5; decide
  have f1 : "zen" ≠ gid := fun h => h1 h.symm
  have f2 : "yogi" ≠ gid := fun h => h2 h.symm
  have f3 : "astrologer" ≠ gid := fun h => h3 h.symm
  have f4 : "monk" ≠ gid := fun h => h4 h.symm
  have f5 : "sufi" ≠ gid := fun h => h5 h.symm
  have v1 : (Value.str "zen" == Value.str gid) = false := beq_eq_false_iff_ne.mpr (by simp [f1])
  have v2 : (Value.str "yogi" == Value.str gid) = false := beq_eq_false_iff_ne.mpr (by simp [f2])
  have v3 : (Value.str "astrologer" == Value.str gid) = false := beq_eq_false_iff_ne.mpr (by simp [f3])
  have v4 : (Value.str "monk" == Value.str gid) = false := beq_eq_false_iff_ne.mpr (by simp [f4])
  have v5 : (Value.str "sufi" == Value.str gid) = false := beq_eq_false_iff_ne.mpr (by simp [f5])
  simp [ask_defaults, List.find?, List.lookup, h1, h2, h3, h4, h5, v1, v2, v3, v4, v5]

/-- C2: persona resolution queries the store for a document whose
archetype or identifier equals `guru_id`; a query failure is swallowed and
treated like an empty result; a non-empty result yields its first match; an
empty result falls back to the default table, which matches exactly the
five archetype strings; and an unresolved persona makes `ask_guru` report
the not-found condition (no reply is produced). -/
theorem resolve_persona_spec (gid : String) (db : DB) :
    (db.failures.head? = some true →
       (resolve_persona gid db).1
         = ask_defaults.find? (fun g => g.lookup "archetype" == some (.str gid))) ∧
    (db.failures.head? ≠ some true →
       ((db.store.guru.filter (docMatches (.byArchetypeOrId gid)) = [] →
           (resolve_persona gid db).1
             = ask_defaults.find? (fun g => g.lookup "archetype" == some (.str gid))) ∧
        (∀ d ds, db.store.guru.filter (docMatches (.byArchetypeOrId gid)) = d :: ds →
           (resolve_persona gid db).1 = some d))) ∧
    ((ask_defaults.find? (fun g => g.lookup "archetype" == some (.str gid))).isSome
       ↔ gid ∈ (["zen", "yogi", "astrologer", "monk", "sufi"] : List String)) ∧
    (∀ p : AskRequest, p.guru_id = gid → (resolve_persona gid db).1 = none →
       (ask_guru p db).1 = AskResult.notFound) := by
  refine ⟨?_, ?_, find_ask_defaults_isSome gid, ?_⟩
  · intro h
    rcases db with ⟨st, fl, lg⟩
    rcases fl with _ | ⟨b, rest⟩
    · simp at h
    · simp at h
      subst h
      simp [resolve_persona, get_documents, nextFail]
  · intro h
    constructor
    · intro hemp
      rcases db with ⟨st, fl, lg⟩
      rcases fl with _ | ⟨b, rest⟩
      · simp [resolve_persona, get_documents, nextFail, Store.getColl, hemp]
      · rcases b
        · simp [resolve_persona, get_documents, nextFail, Store.getColl, hemp]
        · simp at h
    · intro d ds hcons
      rcases db with ⟨st, fl, lg⟩
      rcases fl with _ | ⟨b, rest⟩
      · simp [resolve_persona, get_documents, nextFail, Store.getColl, hcons]
      · rcases b
        · simp [resolve_persona, get_documents, nextFail, Store.getColl, hcons]
        · simp at h
  · intro p hp hnone
    subst hp
    rcases hr : resolve_persona p.guru_id db with ⟨r, db1⟩
    rw [hr] at hnone
    simp only at hnone
    subst hnone
    simp [ask_guru, hr]

/-- C2 witness: with the store unreachable (first flag raised), resolving
"zen" still finds the default zen persona; "zen" is in the archetype list;
and a guru id matching nothing makes `ask_guru` return not-found. -/
theorem resolve_persona_spec_witness :
    ((⟨⟨[], [], [], 0⟩, [true], []⟩ : DB).failures.head? = some true) ∧
    (resolve_persona "zen" (⟨⟨[], [], [], 0⟩, [true], []⟩ : DB)).1
      = ask_defaults.find? (fun g => g.lookup "archetype" == some (.str "zen")) ∧
    ((ask_defaults.find? (fun g => g.lookup "archetype" == some (.str "zen"))).isSome
       ↔ "zen" ∈ (["zen", "yogi", "astrologer", "monk", "sufi"] : List String)) :=
  ⟨rfl,
   (resolve_persona_spec "zen" (⟨⟨[], [], [], 0⟩, [true], []⟩ : DB)).1 rfl,
   (resolve_persona_spec "zen" (⟨⟨[], [], [], 0⟩, [true], []⟩ : DB)).2.2.1⟩

/-- C6: when the persona does not resolve, `ask_guru` reports not-found,
leaves the store unchanged, and attempts no write at all. -/
theorem notfound_no_writes (p : AskRequest) (db : DB)
    (h : (resolve_persona p.guru_id db).1 = none) :
    (ask_guru p db).1 = AskResult.notFound ∧
    (ask_guru p db).2.store = db.store ∧
    (ask_guru p db).2.writeLog = db.writeLog := by
  have hstate := resolve_persona_state p.guru_id db
  rcases hr : resolve_persona p.guru_id db with ⟨r, db1⟩
  rw [hr] at h hstate
  simp only at h hstate
  subst h
  subst hstate
  simp [ask_guru, hr]

/-- C6 witness: guru_id "unknown-persona-xyz" against a healthy empty
store resolves to nothing; the request 404s with no state change. -/
theorem notfound_no_writes_witness :
    (resolve_persona "unknown-persona-xyz" (⟨⟨[], [], [], 0⟩, [], []⟩ : DB)).1 = none ∧
    ((ask_guru ⟨none, "unknown-persona-xyz", "hi", none⟩ (⟨⟨[], [], [], 0⟩, [], []⟩ : DB)).1
        = AskResult.notFound ∧
     (ask_guru ⟨none, "unknown-persona-xyz", "hi", none⟩ (⟨⟨[], [], [], 0⟩, [], []⟩ : DB)).2.store
        = (⟨⟨[], [], [], 0⟩, [], []⟩ : DB).store ∧
     (ask_guru ⟨none, "unknown-persona-xyz", "hi", none⟩ (⟨⟨[], [], [], 0⟩, [], []⟩ : DB)).2.writeLog
        = (⟨⟨[], [], [], 0⟩, [], []⟩ : DB).writeLog) :=
  ⟨by decide, notfound_no_writes ⟨none, "unknown-persona-xyz", "hi", none⟩ _ (by decide)⟩

/-- C7: on an empty, fully reachable store, `list_gurus` writes exactly
the five defaults to the guru collection, then returns five personas whose
archetypes are exactly zen, yogi, astrologer, monk, sufi in order; a second
call performs no further writes and returns the same five. -/
theorem list_gurus_seeding (db : DB) (h1 : db.store.guru = []) (h2 : db.failures = []) :
    (list_gurus db).1.map (fun d => d.lookup "archetype")
      = [some (.str "zen"), some (.str "yogi"), some (.str "astrologer"),
         some (.str "monk"), some (.str "sufi")] ∧
    (list_gurus db).1.length = 5 ∧
    (list_gurus db).2.writeLog
      = db.writeLog ++ (default_gurus.map (fun g => ("guru", g))) ∧
    (list_gurus (list_gurus db).2).1 = (list_gurus db).1 ∧
    (list_gurus (list_gurus db).2).2 = (list_gurus db).2 := by
  rcases db with ⟨⟨gs, conv, msg, n⟩, fl, lg⟩
  simp at h1 h2
  subst h1
  subst h2
  refine ⟨?_, ?_, ?_, ?_, ?_⟩ <;>
    simp [list_gurus, get_documents, nextFail, seed_loop, create_document,
          default_gurus, Store.getColl, Store.setColl, normalize_doc, List.lookup]

/-- C7 witness: a concrete empty store with an all-success schedule. -/
theorem list_gurus_seeding_witness :
    (⟨⟨[], [], [], 0⟩, [], []⟩ : DB).store.guru = [] ∧
    (⟨⟨[], [], [], 0⟩, [], []⟩ : DB).failures = [] ∧
    (list_gurus (⟨⟨[], [], [], 0⟩, [], []⟩ : DB)).1.map (fun d => d.lookup "archetype")
      = [some (.str "zen"), some (.str "yogi"), some (.str "astrologer"),
         some (.str "monk"), some (.str "sufi")] :=
  ⟨rfl, rfl, (list_gurus_seeding (⟨⟨[], [], [], 0⟩, [], []⟩ : DB) rfl rfl).1⟩

/-- C8: when the guru query raises, `list_gurus` returns the five built-in
defaults directly, with the store untouched and nothing written. -/
theorem list_gurus_store_down (db : DB) (h : db.failures.head? = some true) :
    (list_gurus db).1 = default_gurus ∧
    (list_gurus db).2.store = db.store ∧
    (list_gurus db).2.writeLog = db.writeLog := by
  rcases db with ⟨st, fl, lg⟩
  rcases fl with _ | ⟨b, rest⟩
  · simp at h
  · simp at h
    subst h
    refine ⟨?_, ?_, ?_⟩ <;> simp [list_gurus, get_documents, nextFail]
    decide

/-- C8 witness: a schedule whose first store call fails. -/
theorem list_gurus_store_down_witness :
    ((⟨⟨[], [], [], 0⟩, [true], []⟩ : DB).failures.head? = some true) ∧
    ((list_gurus (⟨⟨[], [], [], 0⟩, [true], []⟩ : DB)).1 = default_gurus ∧
     (list_gurus (⟨⟨[], [], [], 0⟩, [true], []⟩ : DB)).2.store
        = (⟨⟨[], [], [], 0⟩, [true], []⟩ : DB).store ∧
     (list_gurus (⟨⟨[], [], [], 0⟩, [true], []⟩ : DB)).2.writeLog
        = (⟨⟨[], [], [], 0⟩, [true], []⟩ : DB).writeLog) :=
  ⟨rfl, list_gurus_store_down (⟨⟨[], [], [], 0⟩, [true], []⟩ : DB) rfl⟩


/-- C1: once the persona resolves (to a document whose archetype value is
a string), `ask_guru` succeeds for every failure schedule: the synthesized
reply is returned together with a non-empty conversation id, and when no
conversation id was supplied and the conversation insert raises (the
second store call, after the resolution query), the id returned is the
"temp-session" sentinel. -/
theorem ask_persistence_degradation (p : AskRequest) (db : DB) (g : Doc) (a : String)
    (hg : (resolve_persona p.guru_id db).1 = some g)
    (ha : (g.lookup "archetype").getD (.str "zen") = .str a) :
    ∃ cid, (ask_guru p db).1 = .ok cid (generate_guru_reply a p.user_message) ∧
      cid ≠ "" ∧
      (falsyOpt p.conversation_id = true → db.failures.get? 1 = some true →
        cid = "temp-session") := by
  rcases db with ⟨st, fl, lg⟩
  have hstate := resolve_persona_state p.guru_id ⟨st, fl, lg⟩
  rcases hr : resolve_persona p.guru_id ⟨st, fl, lg⟩ with ⟨r, db1⟩
  rw [hr] at hg hstate
  simp only at hg hstate
  subst hg
  subst hstate
  by_cases hf : falsyOpt p.conversation_id = true
  · rcases fl with _ | ⟨b0, tl⟩
    · exact ⟨"oid" ++ toString st.nextId,
        by simp [ask_guru, hr, ha, hf, create_document, nextFail]
           intro _ h
           exact absurd h (oid_ne_empty st.nextId),
        oid_ne_empty st.nextId,
        fun _ hget => by simp at hget⟩
    · rcases tl with _ | ⟨b1, rest⟩
      · exact ⟨"oid" ++ toString st.nextId,
          by simp [ask_guru, hr, ha, hf, create_document, nextFail]
             intro _ h
             exact absurd h (oid_ne_empty st.nextId),
          oid_ne_empty st.nextId,
          fun _ hget => by simp at hget⟩
      · rcases b1
        · exact ⟨"oid" ++ toString st.nextId,
            by simp [ask_guru, hr, ha, hf, create_document, nextFail]
               intro _ h
               exact absurd h (oid_ne_empty st.nextId),
            oid_ne_empty st.nextId,
            fun _ hget => by simp at hget⟩
        · exact ⟨"temp-session",
            by simp [ask_guru, hr, ha, hf, create_document, nextFail],
            by decide,
            fun _ _ => rfl⟩
  · rcases hc : p.conversation_id with _ | s
    · rw [hc] at hf
      simp [falsyOpt] at hf
    · rw [hc] at hf
      simp only [falsyOpt] at hf
      have hs : (s == "") = false := by
        rcases hbe : (s == "") with _ | _
        · rfl
        · exact absurd hbe hf
      refine ⟨s, ?_, beq_eq_false_iff_ne.mp hs, ?_⟩
      · simp [ask_guru, hr, ha, hc, falsyOpt, hs]
      · intro h' _
        simp [falsyOpt, hs] at h'

/-- C1 witness: no conversation id supplied, persona "zen" resolved from
the defaults, and a schedule whose conversation insert raises. -/
theorem ask_persistence_degradation_witness :
    (resolve_persona "zen" (⟨⟨[], [], [], 0⟩, [false, true], []⟩ : DB)).1
      = some [("name", .str "Zen Teacher"), ("archetype", .str "zen")] ∧
    (([("name", Value.str "Zen Teacher"), ("archetype", Value.str "zen")].lookup
        "archetype").getD (.str "zen") = .str "zen") ∧
    (∃ cid,
      (ask_guru ⟨none, "zen", "stress", none⟩ (⟨⟨[], [], [], 0⟩, [false, true], []⟩ : DB)).1
        = .ok cid (generate_guru_reply "zen" "stress") ∧
      cid ≠ "" ∧
      (falsyOpt (none : Option String) = true →
        ([false, true] : List Bool).get? 1 = some true → cid = "temp-session")) :=
  ⟨by decide, by decide,
   ask_persistence_degradation ⟨none, "zen", "stress", none⟩
     (⟨⟨[], [], [], 0⟩, [false, true], []⟩ : DB)
     [("name", .str "Zen Teacher"), ("archetype", .str "zen")] "zen"
     (by decide) (by decide)⟩

/-- C9: when a non-empty conversation id is supplied and the persona
resolves, the returned conversation id is exactly the supplied one for
every failure schedule, the conversation collection is unchanged, and only
message-collection writes are ever attempted. -/
theorem supplied_conversation_reuse (p : AskRequest) (db : DB) (s : String) (g : Doc) (a : String)
    (hc : p.conversation_id = some s) (hs : s ≠ "")
    (hg : (resolve_persona p.guru_id db).1 = some g)
    (ha : (g.lookup "archetype").getD (.str "zen") = .str a) :
    (ask_guru p db).1 = .ok s (generate_guru_reply a p.user_message) ∧
    (ask_guru p db).2.store.conversation = db.store.conversation ∧
    (∀ e ∈ (ask_guru p db).2.writeLog, e ∈ db.writeLog ∨ e.1 = "message") := by
  rcases db with ⟨st, fl, lg⟩
  have hstate := resolve_persona_state p.guru_id ⟨st, fl, lg⟩
  rcases hr : resolve_persona p.guru_id ⟨st, fl, lg⟩ with ⟨r, db1⟩
  rw [hr] at hg hstate
  simp only at hg hstate
  subst hg
  subst hstate
  have hsb : (s == "") = false := beq_eq_false_iff_ne.mpr hs
  rcases hw : write_messages s p.guru_id p.user_message (generate_guru_reply a p.user_message)
      ⟨st, fl.tail, lg⟩ with ⟨raised, db3⟩
  have econv := write_messages_conversation s p.guru_id p.user_message
      (generate_guru_reply a p.user_message) ⟨st, fl.tail, lg⟩
  rw [hw] at econv
  simp only at econv
  have elog := write_messages_log s p.guru_id p.user_message
      (generate_guru_reply a p.user_message) ⟨st, fl.tail, lg⟩
  rw [hw] at elog
  simp only at elog
  refine ⟨?_, ?_, ?_⟩
  · simp [ask_guru, hr, ha, hc, falsyOpt, hsb]
  · simp [ask_guru, hr, ha, hc, falsyOpt, hsb, hw]
    exact econv
  · simp [ask_guru, hr, ha, hc, falsyOpt, hsb, hw]
    intro x d hd
    simpa using elog (x, d) hd

/-- C9 witness: a supplied conversation id "conv1" with persona "zen" on a
healthy empty store. -/
theorem supplied_conversation_reuse_witness :
    ((⟨some "conv1", "zen", "hi", none⟩ : AskRequest).conversation_id = some "conv1") ∧
    ("conv1" ≠ "") ∧
    ((resolve_persona "zen" (⟨⟨[], [], [], 0⟩, [], []⟩ : DB)).1
      = some [("name", .str "Zen Teacher"), ("archetype", .str "zen")]) ∧
    ((ask_guru ⟨some "conv1", "zen", "hi", none⟩ (⟨⟨[], [], [], 0⟩, [], []⟩ : DB)).1
        = .ok "conv1" (generate_guru_reply "zen" "hi") ∧
     (ask_guru ⟨some "conv1", "zen", "hi", none⟩ (⟨⟨[], [], [], 0⟩, [], []⟩ : DB)).2.store.conversation
        = (⟨⟨[], [], [], 0⟩, [], []⟩ : DB).store.conversation ∧
     (∀ e ∈ (ask_guru ⟨some "conv1", "zen", "hi", none⟩ (⟨⟨[], [], [], 0⟩, [], []⟩ : DB)).2.writeLog,
        e ∈ (⟨⟨[], [], [], 0⟩, [], []⟩ : DB).writeLog ∨ e.1 = "message")) :=
  ⟨rfl, by decide, by decide,
   supplied_conversation_reuse ⟨some "conv1", "zen", "hi", none⟩
     (⟨⟨[], [], [], 0⟩, [], []⟩ : DB) "conv1"
     [("name", .str "Zen Teacher"), ("archetype", .str "zen")] "zen"
     rfl (by decide) (by decide) (by decide)⟩

end GuruChat
